import Mathlib

/-!
Shallow embedding of the gesture recognition engine of
`AnkiGestureControl/gesture_worker.py` (class `GestureController` and the
inbound-command handling of its `run` loop), together with proofs about the
spec's claims.  Angles and wall-clock times are modelled as rationals;
Python `None` becomes `Option`; the per-frame mutation of `self` becomes
explicit state passing.
-/

namespace GestureWorker

/-- Head gesture direction; in the source these are the string literals
`"left"`, `"right"`, `"up"`, `"down"` assigned to `detected_gesture` /
`self.current_gesture` in `detect_head_gesture`. -/
inductive Dir where
  | left | right | up | down
deriving DecidableEq, Repr

/-- Head gesture mode; in the source the strings `"nod"` / `"hold"` stored in
`self.gesture_type`. -/
inductive GMode where
  | nod | hold
deriving DecidableEq, Repr

/-- Detection parameters loaded in `GestureController.__init__` from the
`detection` section of the config, with the defaults of `load_config`. -/
structure Config where
  pitch_threshold : ℚ := 12
  yaw_threshold : ℚ := 20
  nod_max_time : ℚ := 1
  hold_min_time : ℚ := 1
  return_threshold : ℚ := 8
  cooldown_time : ℚ := 1
  smoothing_window : ℕ := 5
  calibration_frames : ℕ := 30
  scroll_cooldown : ℚ := 1/10
  hand_cooldown : ℚ := 1
  swipe_threshold : ℚ := 3/20
  swipe_max_time : ℚ := 1/2
deriving DecidableEq, Repr

/-- The default configuration (all keys absent from the user config). -/
def defaultConfig : Config := {}

/-- Mutable head-gesture fields of `GestureController` (set up in
`__init__`): `last_gesture_time`, `gesture_start_time`, `current_gesture`,
`gesture_triggered`, `gesture_type`, `max_deviation`, `last_scroll_time`. -/
structure HState where
  last_gesture_time : ℚ := 0
  gesture_start_time : Option ℚ := none
  current_gesture : Option Dir := none
  gesture_triggered : Bool := false
  gesture_type : Option GMode := none
  max_deviation : ℚ := 0
  last_scroll_time : ℚ := 0
deriving DecidableEq, Repr

/-- The initial head-gesture state built by `GestureController.__init__`. -/
def HState.init : HState := {}

/-- The yaw (horizontal) threshold test of `detect_head_gesture`: the body of
the `abs(rel_yaw) > abs(rel_pitch) * 1.2` branch. -/
def yawRule (cfg : Config) (rel_yaw : ℚ) : Option (Dir × ℚ) :=
  if rel_yaw > cfg.yaw_threshold then some (Dir.right, |rel_yaw|)
  else if rel_yaw < -cfg.yaw_threshold then some (Dir.left, |rel_yaw|)
  else none

/-- The pitch (vertical) threshold test of `detect_head_gesture`: the body of
the `abs(rel_pitch) > abs(rel_yaw) * 0.6` branch. -/
def pitchRule (cfg : Config) (rel_pitch : ℚ) : Option (Dir × ℚ) :=
  if rel_pitch > cfg.pitch_threshold then some (Dir.down, |rel_pitch|)
  else if rel_pitch < -cfg.pitch_threshold then some (Dir.up, |rel_pitch|)
  else none

/-- The axis arbitration of `detect_head_gesture` ("Prioritize the axis with
larger deviation"): the horizontal condition is tested first; the vertical
branch is an `elif`. -/
def detectDirection (cfg : Config) (rel_pitch rel_yaw : ℚ) : Option (Dir × ℚ) :=
  if |rel_yaw| > |rel_pitch| * (12/10) then yawRule cfg rel_yaw
  else if |rel_pitch| > |rel_yaw| * (6/10) then pitchRule cfg rel_pitch
  else none

/-- `GestureController.detect_head_gesture(self, pitch, yaw)`, with
`self.neutral_pitch` / `self.neutral_yaw` (guaranteed non-`None` by the
caller in `run`) passed as `neutral_pitch` / `neutral_yaw`, `time.time()`
as `now`, and the head-gesture fields of `self` as `s`.  Returns the
updated state together with the value `return`ed by the Python method
(`None` or a `(direction, mode)` pair). -/
def detect_head_gesture (cfg : Config) (neutral_pitch neutral_yaw : ℚ)
    (s : HState) (pitch yaw now : ℚ) : HState × Option (Dir × GMode) :=
  let rel_pitch := pitch - neutral_pitch
  let rel_yaw := yaw - neutral_yaw
  -- Check cooldown period (skip for continuous scrolling of hold gestures)
  if s.gesture_type ≠ some GMode.hold ∧ now - s.last_gesture_time < cfg.cooldown_time then
    (s, none)
  else
    -- Prioritize the axis with larger deviation
    let detected : Option (Dir × ℚ) := detectDirection cfg rel_pitch rel_yaw
    let near_neutral : Prop :=
      |rel_pitch| < cfg.return_threshold ∧ |rel_yaw| < cfg.return_threshold
    match detected with
    | some (g, dev) =>
      if s.current_gesture ≠ some g then
        -- New gesture started
        ({ s with current_gesture := some g, gesture_start_time := some now,
                  gesture_triggered := false, max_deviation := dev,
                  gesture_type := none }, none)
      else
        -- Continue same gesture
        let s1 := { s with max_deviation := max s.max_deviation dev }
        let elapsed := now - s1.gesture_start_time.getD 0
        if elapsed ≥ cfg.hold_min_time ∧ s1.gesture_triggered = false then
          ({ s1 with gesture_triggered := true, gesture_type := some GMode.hold,
                     last_gesture_time := now,
                     last_scroll_time := now - cfg.scroll_cooldown },
           some (g, GMode.hold))
        else if s1.gesture_type = some GMode.hold ∧ (g = Dir.up ∨ g = Dir.down) then
          if now - s1.last_scroll_time ≥ cfg.scroll_cooldown then
            ({ s1 with last_scroll_time := now }, some (g, GMode.hold))
          else (s1, none)
        else (s1, none)
    | none =>
      if near_neutral ∧ s.current_gesture.isSome then
        -- Returned to neutral - check if it was a nod
        let elapsed := now - s.gesture_start_time.getD 0
        if elapsed < cfg.nod_max_time ∧ s.gesture_triggered = false then
          ({ s with gesture_triggered := true, gesture_type := some GMode.nod,
                    last_gesture_time := now, current_gesture := none,
                    gesture_start_time := none },
           some (s.current_gesture.getD Dir.right, GMode.nod))
        else
          ({ s with current_gesture := none, gesture_start_time := none,
                    gesture_triggered := false, gesture_type := none }, none)
      else (s, none)

/-- Repeated calibrated gesture detection over a list of
`(pitch, yaw, now)` samples, recording what each call returned: the
`detect_head_gesture` calls the `run` loop makes once calibration is
complete, one per frame. -/
def headRun (cfg : Config) (neutral_pitch neutral_yaw : ℚ) (s : HState) :
    List (ℚ × ℚ × ℚ) → HState × List (Option (Dir × GMode))
  | [] => (s, [])
  | (p, y, t) :: rest =>
    let r := detect_head_gesture cfg neutral_pitch neutral_yaw s p y t
    let r2 := headRun cfg neutral_pitch neutral_yaw r.1 rest
    (r2.1, r.2 :: r2.2)

/-- Calibration fields of `GestureController`: the two smoothing/calibration
deques (`pitch_history` / `yaw_history`, `deque(maxlen=SMOOTHING_WINDOW)`,
modelled oldest-first), `neutral_pitch`, `neutral_yaw`, `calibration_count`. -/
structure CalState where
  pitch_history : List ℚ := []
  yaw_history : List ℚ := []
  neutral_pitch : Option ℚ := none
  neutral_yaw : Option ℚ := none
  calibration_count : ℕ := 0
deriving DecidableEq, Repr

/-- The initial calibration state built by `GestureController.__init__`. -/
def CalState.init : CalState := {}

/-- `deque(maxlen=w).append(x)`: append and evict the oldest element when
the window exceeds its capacity. -/
def dequePush (w : ℕ) (l : List ℚ) (x : ℚ) : List ℚ :=
  let l2 := l ++ [x]
  if w < l2.length then l2.drop (l2.length - w) else l2

/-- `np.mean` of a list of rationals. -/
def listMean (l : List ℚ) : ℚ := l.sum / (l.length : ℚ)

/-- `GestureController.calibrate_neutral(self, pitch, yaw)`: while fewer than
`calibration_frames` samples have been collected, push the sample into the
histories and report not-ready (`False`); afterwards, on the first call, set
the neutral angles to the mean of the histories and clear them; report ready
(`True`). -/
def calibrate_neutral (cfg : Config) (s : CalState) (pitch yaw : ℚ) :
    CalState × Bool :=
  if s.calibration_count < cfg.calibration_frames then
    ({ s with pitch_history := dequePush cfg.smoothing_window s.pitch_history pitch,
              yaw_history := dequePush cfg.smoothing_window s.yaw_history yaw,
              calibration_count := s.calibration_count + 1 }, false)
  else if s.neutral_pitch = none then
    ({ s with neutral_pitch := some (listMean s.pitch_history),
              neutral_yaw := some (listMean s.yaw_history),
              pitch_history := [], yaw_history := [] }, true)
  else (s, true)

/-- Fold `calibrate_neutral` over a list of `(pitch, yaw)` samples,
returning the final state and the list of returned readiness flags. -/
def calRun (cfg : Config) (s : CalState) : List (ℚ × ℚ) → CalState × List Bool
  | [] => (s, [])
  | (p, y) :: rest =>
    let r := calibrate_neutral cfg s p y
    let rec' := calRun cfg r.1 rest
    (rec'.1, r.2 :: rec'.2)

/-- The engine state touched by the `recalibrate` command handler in
`GestureController.run`: both the calibration fields and the head-gesture
fields live on the same `self`. -/
structure EngineState where
  cal : CalState
  head : HState
deriving DecidableEq, Repr

/-- The body of the `recalibrate` branch in `GestureController.run`
(lines 483-489): `neutral_pitch = None; neutral_yaw = None;
calibration_count = 0; pitch_history.clear(); yaw_history.clear()`.
No other field of `self` is assigned there. -/
def handleRecalibrate (s : EngineState) : EngineState :=
  { s with cal := { s.cal with neutral_pitch := none, neutral_yaw := none,
                               calibration_count := 0,
                               pitch_history := [], yaw_history := [] } }

/-- One normalized 3-D hand landmark (MediaPipe point). -/
structure Landmark where
  x : ℚ
  y : ℚ
  z : ℚ
deriving DecidableEq, Repr

/-- A hand's landmark set: index 0 is the wrist, 4 the thumb tip, 8/12/16/20
the index/middle/ring/pinky tips, 5/9/13/17 the corresponding MCP joints. -/
structure Hand where
  landmark : ℕ → Landmark

/-- `GestureController.detect_fist(self, hand_landmarks)`: at least four
fingertips below (numerically greater `y` than) their MCP joints and the
thumb tip within `0.8×` the index MCP's horizontal distance of palm center. -/
def detect_fist (h : Hand) : Bool :=
  let thumb_tip := h.landmark 4
  let index_tip := h.landmark 8
  let middle_tip := h.landmark 12
  let ring_tip := h.landmark 16
  let pinky_tip := h.landmark 20
  let index_mcp := h.landmark 5
  let middle_mcp := h.landmark 9
  let ring_mcp := h.landmark 13
  let pinky_mcp := h.landmark 17
  let fingers_curled :=
    (if index_tip.y > index_mcp.y then 1 else 0) +
    (if middle_tip.y > middle_mcp.y then 1 else 0) +
    (if ring_tip.y > ring_mcp.y then 1 else 0) +
    (if pinky_tip.y > pinky_mcp.y then 1 else 0)
  let palm_center_x := (index_mcp.x + pinky_mcp.x) / 2
  let thumb_curled := |thumb_tip.x - palm_center_x| < |index_mcp.x - palm_center_x| * (8/10)
  fingers_curled ≥ 4 && thumb_curled

/-- `GestureController.detect_palm(self, hand_landmarks)`: at least three of
the four fingertips above (numerically smaller `y` than) their MCP joints. -/
def detect_palm (h : Hand) : Bool :=
  let index_tip := h.landmark 8
  let middle_tip := h.landmark 12
  let ring_tip := h.landmark 16
  let pinky_tip := h.landmark 20
  let index_mcp := h.landmark 5
  let middle_mcp := h.landmark 9
  let ring_mcp := h.landmark 13
  let pinky_mcp := h.landmark 17
  let fingers_extended :=
    (if index_tip.y < index_mcp.y then 1 else 0) +
    (if middle_tip.y < middle_mcp.y then 1 else 0) +
    (if ring_tip.y < ring_mcp.y then 1 else 0) +
    (if pinky_tip.y < pinky_mcp.y then 1 else 0)
  fingers_extended ≥ 3

/-- Hand gesture tags; the strings `"swipe_left"` and `"fist"` in the source. -/
inductive HandGesture where
  | swipe_left | fist
deriving DecidableEq, Repr

/-- Hand-gesture fields of `GestureController` (from `__init__`):
`last_hand_gesture_time`, `hand_prev_x`, `swipe_start_time`, `swipe_start_x`. -/
structure HandState where
  last_hand_gesture_time : ℚ := 0
  hand_prev_x : Option ℚ := none
  swipe_start_time : Option ℚ := none
  swipe_start_x : Option ℚ := none
deriving DecidableEq, Repr

/-- The initial hand-gesture state built by `GestureController.__init__`. -/
def HandState.init : HandState := {}

/-- `GestureController.detect_swipe(self, hand_landmarks)`, with
`time.time()` as `now`.  Tracks the middle-finger MCP x-position while the
palm is open, fires `swipe_left` when it moves left by more than
`swipe_threshold` within `swipe_max_time`, re-seeds on timeout, and clears
the tracker when the palm is not shown or when a swipe fires. -/
def detect_swipe (cfg : Config) (s : HandState) (h : Hand) (now : ℚ) :
    HandState × Option HandGesture :=
  let palm_x := (h.landmark 9).x
  let is_palm := detect_palm h
  if is_palm then
    match s.swipe_start_x with
    | none =>
      -- Start tracking swipe
      ({ s with swipe_start_x := some palm_x, swipe_start_time := some now,
                hand_prev_x := some palm_x }, none)
    | some sx =>
      -- Check for swipe motion
      let elapsed := now - s.swipe_start_time.getD 0
      let distance := sx - palm_x
      if elapsed < cfg.swipe_max_time then
        if distance > cfg.swipe_threshold then
          ({ s with swipe_start_x := none, swipe_start_time := none },
           some HandGesture.swipe_left)
        else (s, none)
      else
        -- Timeout, reset
        ({ s with swipe_start_x := some palm_x, swipe_start_time := some now }, none)
  else
    -- Reset if not palm
    ({ s with swipe_start_x := none, swipe_start_time := none }, none)

/-- An outbound event as passed to `send_gesture(gesture_name, gesture_type)`:
the payload fields `gesture` and `action_type` of the wire object. -/
structure Event where
  gesture : String
  action_type : String
deriving DecidableEq, Repr

/-- The string name of a hand gesture as emitted on the wire. -/
def HandGesture.name : HandGesture → String
  | HandGesture.swipe_left => "swipe_left"
  | HandGesture.fist => "fist"

/-- The string name of a head direction (`detected_gesture` literal). -/
def Dir.name : Dir → String
  | Dir.left => "left"
  | Dir.right => "right"
  | Dir.up => "up"
  | Dir.down => "down"

/-- The string name of a head mode (`gesture_type` literal). -/
def GMode.name : GMode → String
  | GMode.nod => "nod"
  | GMode.hold => "hold"

/-- The head-gesture emission of the `run` loop: on
`head_gesture_data = (gesture_dir, gesture_mode)` it sends
`send_gesture(f"\x7bgesture_mode\x7d_\x7bgesture_dir\x7d", "head")`. -/
def headEvent : Option (Dir × GMode) → Option Event
  | none => none
  | some (d, m) => some ⟨m.name ++ "_" ++ d.name, "head"⟩

/-- The newline-terminated JSON line written by `IPCClient.send` for an
event (`json.dumps` with its default separators, preserving the insertion
order `type`, `gesture`, `action_type` of `send_gesture`). -/
def wireLine (e : Event) : String :=
  "\x7b\"type\": \"gesture\", \"gesture\": \"" ++ e.gesture ++
  "\", \"action_type\": \"" ++ e.action_type ++ "\"\x7d\n"

/-- The per-hand body of the hand-detection loop in `GestureController.run`
(lines 539-552): `detect_swipe` runs first; a detected swipe is emitted only
when `current_time - last_hand_gesture_time > HAND_COOLDOWN`; otherwise
`detect_fist` is consulted under the same cooldown.  Returns the updated
state and the event sent this iteration, if any. -/
def handStep (cfg : Config) (s : HandState) (h : Hand) (now : ℚ) :
    HandState × Option Event :=
  let r := detect_swipe cfg s h now
  let s1 := r.1
  if r.2.isSome ∧ now - s1.last_hand_gesture_time > cfg.hand_cooldown then
    ({ s1 with last_hand_gesture_time := now },
     some ⟨(r.2.getD HandGesture.swipe_left).name, "hand"⟩)
  else if detect_fist h then
    if now - s1.last_hand_gesture_time > cfg.hand_cooldown then
      ({ s1 with last_hand_gesture_time := now }, some ⟨HandGesture.fist.name, "hand"⟩)
    else (s1, none)
  else (s1, none)

/-- The whole hand-detection loop of one frame: `handStep` folded over the
tracked hands, each with the `time.time()` value read on its iteration;
collects every event sent during the frame, in order. -/
def handFrame (cfg : Config) (s : HandState) : List (Hand × ℚ) → HandState × List Event
  | [] => (s, [])
  | (h, t) :: rest =>
    let r := handStep cfg s h t
    let r2 := handFrame cfg r.1 rest
    (r2.1, match r.2 with
           | none => r2.2
           | some e => e :: r2.2)

/-- The outcome of `json.loads` plus the `cmd.get` checks for one line of an
inbound read: the JSON library is external to the engine, so a line is
abstracted by its parse result — `malformed` (raises `JSONDecodeError`),
`recalCmd` (`{"type": "command", "command": "recalibrate"}`), or any other
well-formed object. -/
inductive LineParse where
  | malformed | recalCmd | otherCmd
deriving DecidableEq, Repr

/-- The inbound-command block of `GestureController.run` (lines 476-491)
applied to the newline-split parts of one `receive_noblock()` read: parts
are handled left to right; a `recalibrate` command runs the recalibrate
branch; a line whose parse raises `JSONDecodeError` transfers control to
the `except` clause, which `pass`es — ending the `for` loop, so the
remaining parts of this read are not handled. -/
def handleLines : List LineParse → EngineState → EngineState
  | [], s => s
  | LineParse.malformed :: _, s => s
  | LineParse.recalCmd :: rest, s => handleLines rest (handleRecalibrate s)
  | LineParse.otherCmd :: rest, s => handleLines rest s

/-- Modelled from the spec: the inbound handling §6 describes — every
newline-terminated line of the read is parsed independently, and a
malformed line is dropped "without preventing the handling of the other
(well-formed) lines".  Used only to compare with `handleLines`. -/
def specHandleLines : List LineParse → EngineState → EngineState
  | [], s => s
  | LineParse.malformed :: rest, s => specHandleLines rest s
  | LineParse.recalCmd :: rest, s => specHandleLines rest (handleRecalibrate s)
  | LineParse.otherCmd :: rest, s => specHandleLines rest s

/-- The suffix of `l` that a `deque(maxlen=w)` retains after all of `l` has
been appended. -/
def lastWindow (w : ℕ) (l : List ℚ) : List ℚ := l.drop (l.length - w)

/-- A concrete hand whose four fingertips lie below their MCP joints and
whose thumb tip sits on the palm center: `detect_fist` accepts it and
`detect_palm` rejects it. -/
def fistHand : Hand :=
  ⟨fun n => if n = 8 ∨ n = 12 ∨ n = 16 ∨ n = 20 then ⟨0, 1, 0⟩
            else if n = 17 then ⟨1, 0, 0⟩
            else if n = 4 then ⟨1/2, 0, 0⟩
            else ⟨0, 0, 0⟩⟩

/-- A concrete open-palm hand whose middle-finger MCP sits at horizontal
position `px`: `detect_palm` accepts it and `detect_fist` rejects it. -/
def palmHand (px : ℚ) : Hand :=
  ⟨fun n => if n = 9 then ⟨px, 0, 0⟩
            else if n = 8 ∨ n = 12 ∨ n = 16 ∨ n = 20 then ⟨0, -1, 0⟩
            else ⟨0, 0, 0⟩⟩

/-- The eight head gesture names of the wire protocol. -/
def headNames : List String :=
  ["nod_left", "nod_right", "nod_up", "nod_down",
   "hold_left", "hold_right", "hold_up", "hold_down"]

/-- The two hand gesture names of the wire protocol. -/
def handNames : List String := ["swipe_left", "fist"]

/-- A small configuration (2 calibration frames, smoothing window 1) used to
exercise the calibration accumulator at concrete inputs. -/
def calCfgSmall : Config := { calibration_frames := 2, smoothing_window := 1 }

/-- The head-gesture state while a fresh gesture in direction `d`, begun at
time `t` with maximum deviation `dev`, is being tracked from the initial
state: the state `detect_head_gesture` builds on its new-gesture branch. -/
def trackState (d : Dir) (t dev : ℚ) : HState :=
  { last_gesture_time := 0, gesture_start_time := some t,
    current_gesture := some d, gesture_triggered := false,
    gesture_type := none, max_deviation := dev, last_scroll_time := 0 }

theorem dequePush_eq_lastWindow (w : ℕ) (l : List ℚ) (x : ℚ) :
    dequePush w l x = lastWindow w (l ++ [x]) := by
  unfold dequePush lastWindow
  by_cases h : w < (l ++ [x]).length
  · rw [if_pos h]
  · rw [if_neg h, Nat.sub_eq_zero_of_le (le_of_not_lt h), List.drop_zero]

theorem lastWindow_length_le (w : ℕ) (l : List ℚ) : (lastWindow w l).length ≤ w := by
  unfold lastWindow
  rw [List.length_drop]
  omega

theorem lastWindow_drop (w k : ℕ) (l : List ℚ) (h : k + w ≤ l.length) :
    lastWindow w (List.drop k l) = lastWindow w l := by
  unfold lastWindow
  rw [List.drop_drop]
  congr 1
  rw [List.length_drop]
  omega

theorem lastWindow_append (w : ℕ) (m l : List ℚ) :
    lastWindow w (lastWindow w m ++ l) = lastWindow w (m ++ l) := by
  by_cases hm : m.length ≤ w
  · have h1 : lastWindow w m = m := by
      unfold lastWindow
      rw [Nat.sub_eq_zero_of_le hm, List.drop_zero]
    rw [h1]
  · have h1 : lastWindow w m ++ l = List.drop (m.length - w) (m ++ l) := by
      unfold lastWindow
      rw [List.drop_append_of_le_length (by omega)]
    rw [h1, lastWindow_drop w (m.length - w) (m ++ l)
      (by rw [List.length_append]; omega)]

theorem foldl_dequePush (w : ℕ) (l acc : List ℚ) (h : acc.length ≤ w) :
    List.foldl (dequePush w) acc l = lastWindow w (acc ++ l) := by
  induction l generalizing acc with
  | nil =>
    simp only [List.foldl_nil, List.append_nil]
    unfold lastWindow
    rw [Nat.sub_eq_zero_of_le h, List.drop_zero]
  | cons x xs ih =>
    rw [List.foldl_cons, ih _ (by rw [dequePush_eq_lastWindow]; exact lastWindow_length_le _ _),
        dequePush_eq_lastWindow, lastWindow_append, List.append_assoc]
    rfl

theorem calRun_collect (cfg : Config) (samples : List (ℚ × ℚ)) :
    ∀ s : CalState, s.calibration_count + samples.length ≤ cfg.calibration_frames →
    calRun cfg s samples =
      ({ s with
          pitch_history :=
            List.foldl (dequePush cfg.smoothing_window) s.pitch_history
              (samples.map Prod.fst),
          yaw_history :=
            List.foldl (dequePush cfg.smoothing_window) s.yaw_history
              (samples.map Prod.snd),
          calibration_count := s.calibration_count + samples.length },
       List.replicate samples.length false) := by
  induction samples with
  | nil =>
    intro s _
    simp [calRun]
  | cons a rest ih =>
    intro s h
    obtain ⟨p, y⟩ := a
    simp only [List.length_cons] at h
    have hlt : s.calibration_count < cfg.calibration_frames := by omega
    simp only [calRun, calibrate_neutral, if_pos hlt]
    rw [ih _ (by simp; omega)]
    simp only [List.map_cons, List.foldl_cons, List.length_cons, List.replicate_succ]
    refine congrArg₂ _ ?_ rfl
    congr 1
    omega

/-- C1 (amended): the Calibrator reports not-ready for exactly the first
`calibration_frames` pushed samples and becomes ready on the following call,
at which point `neutral_pitch` / `neutral_yaw` equal the mean of the last
`min(smoothing_window, calibration_frames)` accumulated samples — the
suffix retained by the bounded smoothing deques, not the full calibration
sequence — and recalibration resets the calibration state to its initial
value, so the same samples reproduce the same neutral values. -/
theorem calibrator_ready_after_frames_window_mean (cfg : Config)
    (samples : List (ℚ × ℚ)) (hlen : samples.length = cfg.calibration_frames)
    (p y : ℚ) :
    (calRun cfg CalState.init samples).2 =
      List.replicate cfg.calibration_frames false ∧
    (calRun cfg CalState.init samples).1.calibration_count =
      cfg.calibration_frames ∧
    (calRun cfg CalState.init samples).1.neutral_pitch = none ∧
    (calibrate_neutral cfg (calRun cfg CalState.init samples).1 p y).2 = true ∧
    (calibrate_neutral cfg (calRun cfg CalState.init samples).1 p y).1.neutral_pitch =
      some (listMean (lastWindow cfg.smoothing_window (samples.map Prod.fst))) ∧
    (calibrate_neutral cfg (calRun cfg CalState.init samples).1 p y).1.neutral_yaw =
      some (listMean (lastWindow cfg.smoothing_window (samples.map Prod.snd))) ∧
    (∀ e : EngineState,
      calRun cfg (handleRecalibrate e).cal samples = calRun cfg CalState.init samples) := by
  have hcal := calRun_collect cfg samples CalState.init (by simp [CalState.init, hlen])
  have hrecal : ∀ e : EngineState, (handleRecalibrate e).cal = CalState.init := by
    intro e
    rfl
  rw [hcal]
  have hwin : ∀ f : ℚ × ℚ → ℚ,
      List.foldl (dequePush cfg.smoothing_window) ([] : List ℚ)
        (samples.map f) = lastWindow cfg.smoothing_window (samples.map f) := by
    intro f
    have h0 := foldl_dequePush cfg.smoothing_window (samples.map f) []
      (by simp)
    simpa using h0
  refine ⟨by rw [hlen], by simp [CalState.init, hlen], by simp [CalState.init], ?_, ?_, ?_, ?_⟩
  · simp [calibrate_neutral, CalState.init, hlen]
  · simp only [calibrate_neutral, CalState.init]
    rw [if_neg (by simp [hlen])]
    simp [hwin Prod.fst]
  · simp only [calibrate_neutral, CalState.init]
    rw [if_neg (by simp [hlen])]
    simp [hwin Prod.snd]
  · intro e
    rw [hrecal e]
    exact hcal

/-- C1 counterexample: with `calibration_frames = 2` and
`smoothing_window = 1`, pushing the samples `(0,0)` then `(10,10)` and one
further frame makes `neutral_pitch = 10` — the last accumulated sample
alone — while the mean of the full two-sample calibration sequence is `5`. -/
theorem calibrator_full_mean_counterexample :
    (calRun calCfgSmall CalState.init [(0, 0), (10, 10), (0, 0)]).1.neutral_pitch =
      some 10 ∧
    listMean [(0 : ℚ), 10] = 5 ∧ (10 : ℚ) ≠ 5 := by
  refine ⟨?_, ?_, by norm_num⟩
  · norm_num [calRun, calibrate_neutral, dequePush, CalState.init, calCfgSmall, listMean]
  · norm_num [listMean]

/-- Witness for C1 (amended) at `calibration_frames = 2`,
`smoothing_window = 1`, samples `(0,0)`, `(10,10)`. -/
theorem calibrator_ready_after_frames_window_mean_witness :
    (calRun calCfgSmall CalState.init [(0, 0), (10, 10)]).2 =
      List.replicate calCfgSmall.calibration_frames false ∧
    (calRun calCfgSmall CalState.init [(0, 0), (10, 10)]).1.calibration_count =
      calCfgSmall.calibration_frames ∧
    (calRun calCfgSmall CalState.init [(0, 0), (10, 10)]).1.neutral_pitch = none ∧
    (calibrate_neutral calCfgSmall
      (calRun calCfgSmall CalState.init [(0, 0), (10, 10)]).1 0 0).2 = true ∧
    (calibrate_neutral calCfgSmall
      (calRun calCfgSmall CalState.init [(0, 0), (10, 10)]).1 0 0).1.neutral_pitch =
      some (listMean (lastWindow calCfgSmall.smoothing_window
        ([(0, 0), (10, 10)].map Prod.fst))) ∧
    (calibrate_neutral calCfgSmall
      (calRun calCfgSmall CalState.init [(0, 0), (10, 10)]).1 0 0).1.neutral_yaw =
      some (listMean (lastWindow calCfgSmall.smoothing_window
        ([(0, 0), (10, 10)].map Prod.snd))) ∧
    (∀ e : EngineState,
      calRun calCfgSmall (handleRecalibrate e).cal [(0, 0), (10, 10)] =
        calRun calCfgSmall CalState.init [(0, 0), (10, 10)]) :=
  calibrator_ready_after_frames_window_mean calCfgSmall [(0, 0), (10, 10)] rfl 0 0

/-- C2 counterexample: applying the `recalibrate` command handler to a state
with an in-progress hold gesture leaves the head-gesture tracking fields
(`current_gesture`, `gesture_start_time`, `gesture_triggered`,
`gesture_type`) exactly as they were: the handler does not reset them. -/
theorem recalibrate_keeps_head_state_counterexample :
    (handleRecalibrate
      { cal := { pitch_history := [], yaw_history := [], neutral_pitch := some 3,
                 neutral_yaw := some 4, calibration_count := 30 },
        head := { last_gesture_time := 2, gesture_start_time := some 5,
                  current_gesture := some Dir.right, gesture_triggered := true,
                  gesture_type := some GMode.hold, max_deviation := 25,
                  last_scroll_time := 6 } }).head =
      { last_gesture_time := 2, gesture_start_time := some 5,
        current_gesture := some Dir.right, gesture_triggered := true,
        gesture_type := some GMode.hold, max_deviation := 25,
        last_scroll_time := 6 } ∧
    ({ last_gesture_time := 2, gesture_start_time := some 5,
       current_gesture := some Dir.right, gesture_triggered := true,
       gesture_type := some GMode.hold, max_deviation := 25,
       last_scroll_time := 6 } : HState).current_gesture ≠ none := by
  exact ⟨rfl, by simp⟩

/-- C2 (amended): the `recalibrate` command handler resets exactly the
calibration fields (neutral angles, calibration count, smoothing windows)
to their initial values and leaves the head-gesture state untouched, so a
gesture begun before the command keeps its direction and start time; with
the default configuration, a surviving tracking state whose
`gesture_start_time` is `hold_min_time` in the past triggers a hold on the
very first post-recalibration frame, inheriting the pre-command elapsed
time. -/
theorem recalibrate_resets_calibration_only (s : EngineState) :
    (handleRecalibrate s).cal = CalState.init ∧
    (handleRecalibrate s).head = s.head ∧
    (detect_head_gesture defaultConfig 0 0
      { last_gesture_time := 0, gesture_start_time := some 0,
        current_gesture := some Dir.right, gesture_triggered := false,
        gesture_type := none, max_deviation := 25, last_scroll_time := 0 }
      0 25 (3/2)).2 = some (Dir.right, GMode.hold) := by
  refine ⟨rfl, rfl, ?_⟩
  norm_num [detect_head_gesture, detectDirection, yawRule, defaultConfig]

/-- C10: the two axis-dominance conditions of `detect_head_gesture` are not
mutually exclusive — `|rel_yaw| = 13`, `|rel_pitch| = 10` satisfies both
`|rel_yaw| > |rel_pitch|·1.2` and `|rel_pitch| > |rel_yaw|·0.6` — and
whenever the horizontal condition holds the arbitration applies the yaw
rule (the horizontal branch is tested first); the pitch rule is reached
only when the horizontal condition fails. -/
theorem axis_arbitration_overlap_yaw_first :
    (|(13 : ℚ)| > |(10 : ℚ)| * (12/10) ∧ |(10 : ℚ)| > |(13 : ℚ)| * (6/10)) ∧
    (∀ (cfg : Config) (rel_pitch rel_yaw : ℚ), |rel_yaw| > |rel_pitch| * (12/10) →
      detectDirection cfg rel_pitch rel_yaw = yawRule cfg rel_yaw) ∧
    (∀ (cfg : Config) (rel_pitch rel_yaw : ℚ), ¬ (|rel_yaw| > |rel_pitch| * (12/10)) →
      |rel_pitch| > |rel_yaw| * (6/10) →
      detectDirection cfg rel_pitch rel_yaw = pitchRule cfg rel_pitch) := by
  refine ⟨⟨by norm_num, by norm_num⟩, ?_, ?_⟩
  · intro cfg rp ry h
    simp [detectDirection, h]
  · intro cfg rp ry h1 h2
    simp [detectDirection, h1, h2]

/-- Witness for C10 at the overlap input `rel_pitch = 10`, `rel_yaw = 13`. -/
theorem axis_arbitration_overlap_yaw_first_witness :
    detectDirection defaultConfig 10 13 = yawRule defaultConfig 13 :=
  axis_arbitration_overlap_yaw_first.2.1 defaultConfig 10 13 (by norm_num)

/-- C5: when the mode is not `hold` and `now - last_gesture_time` is below
`cooldown_time`, `detect_head_gesture` returns no event and leaves the state
unchanged; when the mode is `hold`, the returned event does not depend on
`last_gesture_time` at all, so hold repeat-fires are never suppressed by the
global cooldown. -/
theorem cooldown_suppresses_unless_hold :
    (∀ (cfg : Config) (np ny : ℚ) (s : HState) (p y now : ℚ),
      s.gesture_type ≠ some GMode.hold →
      now - s.last_gesture_time < cfg.cooldown_time →
      detect_head_gesture cfg np ny s p y now = (s, none)) ∧
    (∀ (cfg : Config) (np ny : ℚ) (s : HState) (p y now l1 l2 : ℚ),
      s.gesture_type = some GMode.hold →
      (detect_head_gesture cfg np ny { s with last_gesture_time := l1 } p y now).2 =
      (detect_head_gesture cfg np ny { s with last_gesture_time := l2 } p y now).2) := by
  constructor
  · intro cfg np ny s p y now h1 h2
    unfold detect_head_gesture
    rw [if_pos ⟨h1, h2⟩]
  · intro cfg np ny s p y now l1 l2 h
    obtain ⟨lg, gst, cg, gt, gty, md, lst⟩ := s
    simp only at h
    subst h
    unfold detect_head_gesture
    simp only [ne_eq, reduceCtorEq, not_true_eq_false, false_and, if_false]
    cases hd : detectDirection cfg (p - np) (y - ny) with
    | none =>
      by_cases h1 : (|p - np| < cfg.return_threshold ∧ |y - ny| < cfg.return_threshold) ∧
          cg.isSome = true
      · by_cases h2 : now - gst.getD 0 < cfg.nod_max_time ∧ gt = false <;> simp [h1, h2]
      · simp [h1]
    | some v =>
      obtain ⟨g, dev⟩ := v
      by_cases hc : cg ≠ some g
      · simp [hc]
      · simp only [hc, if_false, ite_not]
        by_cases h2 : now - gst.getD 0 ≥ cfg.hold_min_time ∧ gt = false
        · simp [h2]
        · simp only [h2, if_false]
          by_cases h3 : g = Dir.up ∨ g = Dir.down
          · by_cases h4 : cfg.scroll_cooldown ≤ now - lst <;> simp [h3, h4]
          · simp [h3]

/-- Witness for C5: a non-hold state inside the cooldown window returns no
event. -/
theorem cooldown_suppresses_unless_hold_witness :
    detect_head_gesture defaultConfig 0 0
      { HState.init with last_gesture_time := 2 } 0 25 (5/2) =
      ({ HState.init with last_gesture_time := 2 }, none) :=
  cooldown_suppresses_unless_hold.1 defaultConfig 0 0
    { HState.init with last_gesture_time := 2 } 0 25 (5/2)
    (by simp [HState.init]) (by norm_num [HState.init, defaultConfig])

theorem dhg_new_gesture (cfg : Config) (np ny : ℚ) (s : HState) (p y now : ℚ)
    (g : Dir) (dev : ℚ)
    (hcool : ¬(s.gesture_type ≠ some GMode.hold ∧
      now - s.last_gesture_time < cfg.cooldown_time))
    (hdet : detectDirection cfg (p - np) (y - ny) = some (g, dev))
    (hne : s.current_gesture ≠ some g) :
    detect_head_gesture cfg np ny s p y now =
      ({ s with current_gesture := some g, gesture_start_time := some now,
                gesture_triggered := false, max_deviation := dev,
                gesture_type := none }, none) := by
  unfold detect_head_gesture
  rw [if_neg hcool]
  simp only [hdet]
  rw [if_pos hne]

theorem dhg_continue_quiet (cfg : Config) (np ny : ℚ) (s : HState) (p y now : ℚ)
    (g : Dir) (dev : ℚ)
    (hcool : ¬(s.gesture_type ≠ some GMode.hold ∧
      now - s.last_gesture_time < cfg.cooldown_time))
    (hdet : detectDirection cfg (p - np) (y - ny) = some (g, dev))
    (hcur : s.current_gesture = some g)
    (hnh : ¬(now - s.gesture_start_time.getD 0 ≥ cfg.hold_min_time ∧
      s.gesture_triggered = false))
    (hnr : ¬(s.gesture_type = some GMode.hold ∧ (g = Dir.up ∨ g = Dir.down))) :
    detect_head_gesture cfg np ny s p y now =
      ({ s with max_deviation := max s.max_deviation dev }, none) := by
  unfold detect_head_gesture
  rw [if_neg hcool]
  simp only [hdet]
  rw [if_neg (by simp [hcur]), if_neg hnh, if_neg hnr]

theorem dhg_hold_trigger (cfg : Config) (np ny : ℚ) (s : HState) (p y now : ℚ)
    (g : Dir) (dev : ℚ)
    (hcool : ¬(s.gesture_type ≠ some GMode.hold ∧
      now - s.last_gesture_time < cfg.cooldown_time))
    (hdet : detectDirection cfg (p - np) (y - ny) = some (g, dev))
    (hcur : s.current_gesture = some g)
    (helapsed : now - s.gesture_start_time.getD 0 ≥ cfg.hold_min_time)
    (htrig : s.gesture_triggered = false) :
    detect_head_gesture cfg np ny s p y now =
      ({ s with max_deviation := max s.max_deviation dev,
                gesture_triggered := true, gesture_type := some GMode.hold,
                last_gesture_time := now,
                last_scroll_time := now - cfg.scroll_cooldown },
       some (g, GMode.hold)) := by
  unfold detect_head_gesture
  rw [if_neg hcool]
  simp only [hdet]
  rw [if_neg (by simp [hcur]), if_pos ⟨helapsed, htrig⟩]

theorem dhg_hold_repeat (cfg : Config) (np ny : ℚ) (s : HState) (p y now : ℚ)
    (g : Dir) (dev : ℚ)
    (hcool : ¬(s.gesture_type ≠ some GMode.hold ∧
      now - s.last_gesture_time < cfg.cooldown_time))
    (hdet : detectDirection cfg (p - np) (y - ny) = some (g, dev))
    (hcur : s.current_gesture = some g)
    (hnh : ¬(now - s.gesture_start_time.getD 0 ≥ cfg.hold_min_time ∧
      s.gesture_triggered = false))
    (hmode : s.gesture_type = some GMode.hold) (hud : g = Dir.up ∨ g = Dir.down)
    (hscroll : now - s.last_scroll_time ≥ cfg.scroll_cooldown) :
    detect_head_gesture cfg np ny s p y now =
      ({ s with max_deviation := max s.max_deviation dev,
                last_scroll_time := now }, some (g, GMode.hold)) := by
  unfold detect_head_gesture
  rw [if_neg hcool]
  simp only [hdet]
  rw [if_neg (by simp [hcur]), if_neg hnh, if_pos ⟨hmode, hud⟩, if_pos hscroll]

theorem dhg_hold_repeat_blocked (cfg : Config) (np ny : ℚ) (s : HState)
    (p y now : ℚ) (g : Dir) (dev : ℚ)
    (hcool : ¬(s.gesture_type ≠ some GMode.hold ∧
      now - s.last_gesture_time < cfg.cooldown_time))
    (hdet : detectDirection cfg (p - np) (y - ny) = some (g, dev))
    (hcur : s.current_gesture = some g)
    (hnh : ¬(now - s.gesture_start_time.getD 0 ≥ cfg.hold_min_time ∧
      s.gesture_triggered = false))
    (hscroll : ¬(now - s.last_scroll_time ≥ cfg.scroll_cooldown)) :
    detect_head_gesture cfg np ny s p y now =
      ({ s with max_deviation := max s.max_deviation dev }, none) := by
  unfold detect_head_gesture
  rw [if_neg hcool]
  simp only [hdet]
  rw [if_neg (by simp [hcur]), if_neg hnh]
  by_cases hb : s.gesture_type = some GMode.hold ∧ (g = Dir.up ∨ g = Dir.down)
  · rw [if_pos hb, if_neg hscroll]
  · rw [if_neg hb]

theorem dhg_neutral_nod (cfg : Config) (np ny : ℚ) (s : HState) (p y now : ℚ)
    (d : Dir)
    (hcool : ¬(s.gesture_type ≠ some GMode.hold ∧
      now - s.last_gesture_time < cfg.cooldown_time))
    (hdet : detectDirection cfg (p - np) (y - ny) = none)
    (hnp : |p - np| < cfg.return_threshold) (hny : |y - ny| < cfg.return_threshold)
    (hcur : s.current_gesture = some d)
    (hfast : now - s.gesture_start_time.getD 0 < cfg.nod_max_time)
    (htrig : s.gesture_triggered = false) :
    detect_head_gesture cfg np ny s p y now =
      ({ s with gesture_triggered := true, gesture_type := some GMode.nod,
                last_gesture_time := now, current_gesture := none,
                gesture_start_time := none }, some (d, GMode.nod)) := by
  unfold detect_head_gesture
  rw [if_neg hcool]
  simp only [hdet]
  rw [if_pos ⟨⟨hnp, hny⟩, by simp [hcur]⟩, if_pos ⟨hfast, htrig⟩]
  simp [hcur]

theorem dhg_neutral_reset (cfg : Config) (np ny : ℚ) (s : HState) (p y now : ℚ)
    (hcool : ¬(s.gesture_type ≠ some GMode.hold ∧
      now - s.last_gesture_time < cfg.cooldown_time))
    (hdet : detectDirection cfg (p - np) (y - ny) = none)
    (hnp : |p - np| < cfg.return_threshold) (hny : |y - ny| < cfg.return_threshold)
    (hcur : s.current_gesture.isSome)
    (hslow : ¬(now - s.gesture_start_time.getD 0 < cfg.nod_max_time ∧
      s.gesture_triggered = false)) :
    detect_head_gesture cfg np ny s p y now =
      ({ s with current_gesture := none, gesture_start_time := none,
                gesture_triggered := false, gesture_type := none }, none) := by
  unfold detect_head_gesture
  rw [if_neg hcool]
  simp only [hdet]
  rw [if_pos ⟨⟨hnp, hny⟩, hcur⟩, if_neg hslow]

theorem dhg_none_triggered_no_event (cfg : Config) (np ny : ℚ) (s : HState)
    (p y now : ℚ)
    (hdet : detectDirection cfg (p - np) (y - ny) = none)
    (htrig : s.gesture_triggered = true) :
    (detect_head_gesture cfg np ny s p y now).2 = none := by
  unfold detect_head_gesture
  by_cases hcool : s.gesture_type ≠ some GMode.hold ∧
      now - s.last_gesture_time < cfg.cooldown_time
  · rw [if_pos hcool]
  · rw [if_neg hcool]
    simp only [hdet]
    split_ifs with h1 h2
    · rw [htrig] at h2
      exact absurd h2.2 (by simp)
    · rfl
    · rfl

/-- C3: on a call where no direction is detected, the head is near-neutral
and a gesture is being tracked, `detect_head_gesture` emits exactly one
`(direction, nod)` event and clears `current_gesture`/`gesture_start_time`
iff the elapsed time is below `nod_max_time` and the gesture was not yet
triggered; otherwise it clears the tracking state and emits nothing.  In
particular, starting at any time `T` past the initial cooldown, yaw 25 at
`T`, `T+0.3`, `T+0.6` followed by yaw 0 at `T+0.7` (neutral `(0,0)`,
default thresholds) emits no event on the first three calls and exactly one
`(right, nod)` on the returning call. -/
theorem nod_on_return_to_neutral :
    (∀ (cfg : Config) (np ny : ℚ) (s : HState) (p y now : ℚ) (d : Dir),
      ¬(s.gesture_type ≠ some GMode.hold ∧
        now - s.last_gesture_time < cfg.cooldown_time) →
      detectDirection cfg (p - np) (y - ny) = none →
      |p - np| < cfg.return_threshold → |y - ny| < cfg.return_threshold →
      s.current_gesture = some d →
      ((now - s.gesture_start_time.getD 0 < cfg.nod_max_time ∧
          s.gesture_triggered = false →
        (detect_head_gesture cfg np ny s p y now).2 = some (d, GMode.nod) ∧
        (detect_head_gesture cfg np ny s p y now).1.current_gesture = none ∧
        (detect_head_gesture cfg np ny s p y now).1.gesture_start_time = none) ∧
       (¬(now - s.gesture_start_time.getD 0 < cfg.nod_max_time ∧
          s.gesture_triggered = false) →
        (detect_head_gesture cfg np ny s p y now).2 = none ∧
        (detect_head_gesture cfg np ny s p y now).1 =
          { s with current_gesture := none, gesture_start_time := none,
                   gesture_triggered := false, gesture_type := none }))) ∧
    (∀ T : ℚ, defaultConfig.cooldown_time ≤ T →
      (headRun defaultConfig 0 0 HState.init
        [(0, 25, T), (0, 25, T + 3/10), (0, 25, T + 6/10), (0, 0, T + 7/10)]).2 =
        [none, none, none, some (Dir.right, GMode.nod)]) := by
  constructor
  · intro cfg np ny s p y now d hcool hdet hnp hny hcur
    constructor
    · rintro ⟨hfast, htrig⟩
      rw [dhg_neutral_nod cfg np ny s p y now d hcool hdet hnp hny hcur hfast htrig]
      exact ⟨rfl, rfl, rfl⟩
    · intro hslow
      rw [dhg_neutral_reset cfg np ny s p y now hcool hdet hnp hny
        (by simp [hcur]) hslow]
      exact ⟨rfl, rfl⟩
  · intro T hT
    have hT1 : (1 : ℚ) ≤ T := hT
    have hd1 : detectDirection defaultConfig ((0 : ℚ) - 0) ((25 : ℚ) - 0) =
        some (Dir.right, 25) := by
      norm_num [detectDirection, yawRule, defaultConfig]
    have hd0 : detectDirection defaultConfig ((0 : ℚ) - 0) ((0 : ℚ) - 0) = none := by
      norm_num [detectDirection, defaultConfig]
    have hcd : defaultConfig.cooldown_time = 1 := rfl
    have hhm : defaultConfig.hold_min_time = 1 := rfl
    have hnm : defaultConfig.nod_max_time = 1 := rfl
    have hc : ∀ t : ℚ, T ≤ t → ∀ s : HState, s.last_gesture_time = 0 →
        ¬(s.gesture_type ≠ some GMode.hold ∧
          t - s.last_gesture_time < defaultConfig.cooldown_time) := by
      rintro t ht s hs ⟨-, hlt⟩
      rw [hs, hcd] at hlt
      linarith
    have e1 : detect_head_gesture defaultConfig 0 0 HState.init 0 25 T =
        (trackState Dir.right T 25, none) := by
      rw [dhg_new_gesture defaultConfig 0 0 HState.init 0 25 T Dir.right 25
        (hc T le_rfl HState.init rfl) hd1 (by simp [HState.init])]
      rfl
    have e2 : detect_head_gesture defaultConfig 0 0 (trackState Dir.right T 25)
        0 25 (T + 3/10) = (trackState Dir.right T 25, none) := by
      rw [dhg_continue_quiet defaultConfig 0 0 (trackState Dir.right T 25)
        0 25 (T + 3/10) Dir.right 25
        (hc (T + 3/10) (by linarith) _ rfl) hd1 rfl
        (by rintro ⟨hge, -⟩; rw [hhm] at hge; simp only [trackState, Option.getD_some] at hge; linarith)
        (by rintro ⟨hh, -⟩; simp [trackState] at hh)]
      simp [trackState]
    have e3 : detect_head_gesture defaultConfig 0 0 (trackState Dir.right T 25)
        0 25 (T + 6/10) = (trackState Dir.right T 25, none) := by
      rw [dhg_continue_quiet defaultConfig 0 0 (trackState Dir.right T 25)
        0 25 (T + 6/10) Dir.right 25
        (hc (T + 6/10) (by linarith) _ rfl) hd1 rfl
        (by rintro ⟨hge, -⟩; rw [hhm] at hge; simp only [trackState, Option.getD_some] at hge; linarith)
        (by rintro ⟨hh, -⟩; simp [trackState] at hh)]
      simp [trackState]
    have e4 : (detect_head_gesture defaultConfig 0 0 (trackState Dir.right T 25)
        0 0 (T + 7/10)).2 = some (Dir.right, GMode.nod) := by
      rw [dhg_neutral_nod defaultConfig 0 0 (trackState Dir.right T 25)
        0 0 (T + 7/10) Dir.right
        (hc (T + 7/10) (by linarith) _ rfl) hd0
        (by norm_num [defaultConfig]) (by norm_num [defaultConfig]) rfl
        (by rw [hnm]; simp only [trackState, Option.getD_some]; linarith) rfl]
    simp only [headRun, e1, e2, e3]
    simp only [headRun, e4]

/-- Witness for C3: the general branch at a concrete near-neutral call, and
the scenario at `T = 2`. -/
theorem nod_on_return_to_neutral_witness :
    ((detect_head_gesture defaultConfig 0 0
        { last_gesture_time := 0, gesture_start_time := some 2,
          current_gesture := some Dir.right, gesture_triggered := false,
          gesture_type := none, max_deviation := 25, last_scroll_time := 0 }
        0 0 (27/10)).2 = some (Dir.right, GMode.nod) ∧
      (detect_head_gesture defaultConfig 0 0
        { last_gesture_time := 0, gesture_start_time := some 2,
          current_gesture := some Dir.right, gesture_triggered := false,
          gesture_type := none, max_deviation := 25, last_scroll_time := 0 }
        0 0 (27/10)).1.current_gesture = none ∧
      (detect_head_gesture defaultConfig 0 0
        { last_gesture_time := 0, gesture_start_time := some 2,
          current_gesture := some Dir.right, gesture_triggered := false,
          gesture_type := none, max_deviation := 25, last_scroll_time := 0 }
        0 0 (27/10)).1.gesture_start_time = none) ∧
    (headRun defaultConfig 0 0 HState.init
      [(0, 25, 2), (0, 25, 2 + 3/10), (0, 25, 2 + 6/10), (0, 0, 2 + 7/10)]).2 =
      [none, none, none, some (Dir.right, GMode.nod)] := by
  constructor
  · exact (nod_on_return_to_neutral.1 defaultConfig 0 0
      { last_gesture_time := 0, gesture_start_time := some 2,
        current_gesture := some Dir.right, gesture_triggered := false,
        gesture_type := none, max_deviation := 25, last_scroll_time := 0 }
      0 0 (27/10) Dir.right
      (by rintro ⟨-, hlt⟩; simp [defaultConfig] at hlt; linarith)
      (by norm_num [detectDirection, defaultConfig])
      (by norm_num [defaultConfig]) (by norm_num [defaultConfig]) rfl).1
      (by constructor
          · simp [defaultConfig]
            norm_num
          · rfl)
  · exact nod_on_return_to_neutral.2 2 (by norm_num [defaultConfig])

/-- C4: when the same direction is sustained and the elapsed time first
reaches `hold_min_time` with `triggered` still false, `detect_head_gesture`
emits one `(direction, hold)` event, marks the gesture triggered in hold
mode, and seeds `last_scroll_time = now - scroll_cooldown`, so any call at
or after `now` already satisfies the scroll-cooldown guard (the first
repeat tick is allowed immediately); afterwards, while the hold is active,
an event is emitted only when at least `scroll_cooldown` has passed since
`last_scroll_time`, the emission sets `last_scroll_time` to `now`, and the
direction is `up` or `down` in hold mode — so repeat fires are never
closer than `scroll_cooldown`. -/
theorem hold_trigger_and_repeat_cooldown :
    (∀ (cfg : Config) (np ny : ℚ) (s : HState) (p y now : ℚ) (g : Dir) (dev : ℚ),
      ¬(s.gesture_type ≠ some GMode.hold ∧
        now - s.last_gesture_time < cfg.cooldown_time) →
      detectDirection cfg (p - np) (y - ny) = some (g, dev) →
      s.current_gesture = some g →
      now - s.gesture_start_time.getD 0 ≥ cfg.hold_min_time →
      s.gesture_triggered = false →
      (detect_head_gesture cfg np ny s p y now).2 = some (g, GMode.hold) ∧
      (detect_head_gesture cfg np ny s p y now).1.gesture_triggered = true ∧
      (detect_head_gesture cfg np ny s p y now).1.gesture_type = some GMode.hold ∧
      (detect_head_gesture cfg np ny s p y now).1.last_scroll_time =
        now - cfg.scroll_cooldown ∧
      (∀ t : ℚ, now ≤ t →
        t - (detect_head_gesture cfg np ny s p y now).1.last_scroll_time ≥
          cfg.scroll_cooldown)) ∧
    (∀ (cfg : Config) (np ny : ℚ) (s : HState) (p y now : ℚ) (e : Dir × GMode),
      s.gesture_type = some GMode.hold → s.gesture_triggered = true →
      (detect_head_gesture cfg np ny s p y now).2 = some e →
      now - s.last_scroll_time ≥ cfg.scroll_cooldown ∧
      (detect_head_gesture cfg np ny s p y now).1.last_scroll_time = now ∧
      (e.1 = Dir.up ∨ e.1 = Dir.down) ∧ e.2 = GMode.hold) := by
  constructor
  · intro cfg np ny s p y now g dev hcool hdet hcur helapsed htrig
    rw [dhg_hold_trigger cfg np ny s p y now g dev hcool hdet hcur helapsed htrig]
    refine ⟨rfl, rfl, rfl, rfl, ?_⟩
    intro t ht
    show t - (now - cfg.scroll_cooldown) ≥ cfg.scroll_cooldown
    linarith
  · intro cfg np ny s p y now e hmode htrig he
    have hcool : ¬(s.gesture_type ≠ some GMode.hold ∧
        now - s.last_gesture_time < cfg.cooldown_time) := by
      rintro ⟨hne, -⟩
      exact hne hmode
    cases hdet : detectDirection cfg (p - np) (y - ny) with
    | none =>
      rw [dhg_none_triggered_no_event cfg np ny s p y now hdet htrig] at he
      exact absurd he (by simp)
    | some v =>
      obtain ⟨g, dev⟩ := v
      by_cases hne : s.current_gesture ≠ some g
      · rw [dhg_new_gesture cfg np ny s p y now g dev hcool hdet hne] at he
        exact absurd he (by simp)
      · have hcur : s.current_gesture = some g := not_not.mp hne
        have hnh : ¬(now - s.gesture_start_time.getD 0 ≥ cfg.hold_min_time ∧
            s.gesture_triggered = false) := by
          rintro ⟨-, h⟩
          rw [htrig] at h
          exact absurd h (by simp)
        by_cases hud : g = Dir.up ∨ g = Dir.down
        · by_cases hsc : now - s.last_scroll_time ≥ cfg.scroll_cooldown
          · have heq := dhg_hold_repeat cfg np ny s p y now g dev hcool hdet hcur
              hnh hmode hud hsc
            rw [heq] at he ⊢
            obtain rfl : (g, GMode.hold) = e := Option.some.inj he
            exact ⟨hsc, rfl, hud, rfl⟩
          · rw [dhg_hold_repeat_blocked cfg np ny s p y now g dev hcool hdet hcur
              hnh hsc] at he
            exact absurd he (by simp)
        · rw [dhg_continue_quiet cfg np ny s p y now g dev hcool hdet hcur hnh
            (by rintro ⟨-, h⟩; exact hud h)] at he
          exact absurd he (by simp)

/-- Witness for C4: the hold trigger at a sustained right gesture (start 0,
now 1.5), and the repeat-fire guard at a concrete active hold state. -/
theorem hold_trigger_and_repeat_cooldown_witness :
    ((detect_head_gesture defaultConfig 0 0 (trackState Dir.right 0 25)
        0 25 (3/2)).2 = some (Dir.right, GMode.hold) ∧
      (detect_head_gesture defaultConfig 0 0 (trackState Dir.right 0 25)
        0 25 (3/2)).1.gesture_triggered = true ∧
      (detect_head_gesture defaultConfig 0 0 (trackState Dir.right 0 25)
        0 25 (3/2)).1.gesture_type = some GMode.hold ∧
      (detect_head_gesture defaultConfig 0 0 (trackState Dir.right 0 25)
        0 25 (3/2)).1.last_scroll_time = 3/2 - defaultConfig.scroll_cooldown ∧
      (∀ t : ℚ, (3/2 : ℚ) ≤ t →
        t - (detect_head_gesture defaultConfig 0 0 (trackState Dir.right 0 25)
          0 25 (3/2)).1.last_scroll_time ≥ defaultConfig.scroll_cooldown)) ∧
    ((3 : ℚ) - ({ last_gesture_time := 2, gesture_start_time := some 1,
                  current_gesture := some Dir.down, gesture_triggered := true,
                  gesture_type := some GMode.hold, max_deviation := 20,
                  last_scroll_time := 2 } : HState).last_scroll_time ≥
        defaultConfig.scroll_cooldown ∧
      (detect_head_gesture defaultConfig 0 0
        { last_gesture_time := 2, gesture_start_time := some 1,
          current_gesture := some Dir.down, gesture_triggered := true,
          gesture_type := some GMode.hold, max_deviation := 20,
          last_scroll_time := 2 } 20 0 3).1.last_scroll_time = 3 ∧
      ((Dir.down, GMode.hold).1 = Dir.up ∨ (Dir.down, GMode.hold).1 = Dir.down) ∧
      (Dir.down, GMode.hold).2 = GMode.hold) := by
  constructor
  · exact hold_trigger_and_repeat_cooldown.1 defaultConfig 0 0
      (trackState Dir.right 0 25) 0 25 (3/2) Dir.right 25
      (by
        rintro ⟨-, hlt⟩
        have h0 : (trackState Dir.right 0 25).last_gesture_time = 0 := rfl
        have h1 : defaultConfig.cooldown_time = 1 := rfl
        rw [h0, h1] at hlt
        norm_num at hlt)
      (by norm_num [detectDirection, yawRule, defaultConfig]) rfl
      (by
        have h0 : (trackState Dir.right 0 25).gesture_start_time = some 0 := rfl
        have h1 : defaultConfig.hold_min_time = 1 := rfl
        rw [h0, h1, Option.getD_some]
        norm_num) rfl
  · exact hold_trigger_and_repeat_cooldown.2 defaultConfig 0 0
      { last_gesture_time := 2, gesture_start_time := some 1,
        current_gesture := some Dir.down, gesture_triggered := true,
        gesture_type := some GMode.hold, max_deviation := 20,
        last_scroll_time := 2 } 20 0 3 (Dir.down, GMode.hold) rfl rfl
      (by norm_num [detect_head_gesture, detectDirection, pitchRule, defaultConfig])

theorem detect_swipe_last (cfg : Config) (s : HandState) (h : Hand) (now : ℚ) :
    (detect_swipe cfg s h now).1.last_hand_gesture_time =
      s.last_hand_gesture_time := by
  obtain ⟨lh, hpx, st, sx⟩ := s
  cases sx with
  | none =>
    dsimp only [detect_swipe]
    split_ifs <;> rfl
  | some v =>
    dsimp only [detect_swipe]
    split_ifs <;> rfl

theorem detect_swipe_some_clears (cfg : Config) (s : HandState) (h : Hand)
    (now : ℚ) (g : HandGesture)
    (he : (detect_swipe cfg s h now).2 = some g) :
    (detect_swipe cfg s h now).1.swipe_start_x = none ∧
    (detect_swipe cfg s h now).1.swipe_start_time = none := by
  obtain ⟨lh, hpx, st, sx⟩ := s
  cases sx with
  | none =>
    dsimp only [detect_swipe] at he ⊢
    split_ifs at he <;> simp at he
  | some v =>
    dsimp only [detect_swipe] at he ⊢
    split_ifs at he ⊢ <;> first | exact ⟨rfl, rfl⟩ | simp at he

theorem detect_swipe_only_left (cfg : Config) (s : HandState) (h : Hand)
    (now : ℚ) :
    (detect_swipe cfg s h now).2 = none ∨
    (detect_swipe cfg s h now).2 = some HandGesture.swipe_left := by
  obtain ⟨lh, hpx, st, sx⟩ := s
  cases sx with
  | none =>
    dsimp only [detect_swipe]
    split_ifs <;> simp
  | some v =>
    dsimp only [detect_swipe]
    split_ifs <;> simp

theorem handStep_event_cooldown (cfg : Config) (s : HandState) (h : Hand)
    (now : ℚ) (e : Event)
    (he : (handStep cfg s h now).2 = some e) :
    now - s.last_hand_gesture_time > cfg.hand_cooldown ∧
    (handStep cfg s h now).1.last_hand_gesture_time = now := by
  dsimp only [handStep] at he ⊢
  rw [detect_swipe_last] at he ⊢
  split_ifs at he ⊢ with h1 h2 h3
  · exact ⟨h1.2, rfl⟩
  · exact ⟨h3, rfl⟩

theorem handStep_blocked (cfg : Config) (s : HandState) (h : Hand) (now : ℚ)
    (hcool : ¬(now - s.last_hand_gesture_time > cfg.hand_cooldown)) :
    (handStep cfg s h now).2 = none ∧
    (handStep cfg s h now).1.last_hand_gesture_time =
      s.last_hand_gesture_time := by
  dsimp only [handStep]
  rw [detect_swipe_last]
  split_ifs with h1 h2
  · exact absurd h1.2 hcool
  · exact ⟨rfl, detect_swipe_last cfg s h now⟩
  · exact ⟨rfl, detect_swipe_last cfg s h now⟩

theorem handFrame_no_emit (cfg : Config) :
    ∀ (hands : List (Hand × ℚ)) (s : HandState),
    (∀ ht ∈ hands, ht.2 - s.last_hand_gesture_time ≤ cfg.hand_cooldown) →
    (handFrame cfg s hands).2 = [] ∧
    (handFrame cfg s hands).1.last_hand_gesture_time =
      s.last_hand_gesture_time := by
  intro hands
  induction hands with
  | nil =>
    intro s _
    exact ⟨rfl, rfl⟩
  | cons a rest ih =>
    intro s hle
    obtain ⟨hd, t⟩ := a
    have hb := handStep_blocked cfg s hd t
      (not_lt.mpr (hle (hd, t) (List.mem_cons_self _ _)))
    have hrest := ih (handStep cfg s hd t).1 (by
      intro ht hmem
      rw [hb.2]
      exact hle ht (List.mem_cons_of_mem _ hmem))
    simp only [handFrame, hb.1]
    exact ⟨hrest.1, hrest.2.trans hb.2⟩

theorem handFrame_at_most_one (cfg : Config) :
    ∀ (hands : List (Hand × ℚ)) (s : HandState),
    List.Pairwise (fun a b : Hand × ℚ => b.2 - a.2 ≤ cfg.hand_cooldown) hands →
    (handFrame cfg s hands).2.length ≤ 1 := by
  intro hands
  induction hands with
  | nil =>
    intro s _
    simp [handFrame]
  | cons a rest ih =>
    intro s hp
    obtain ⟨hd, t⟩ := a
    obtain ⟨hrel, hp'⟩ := List.pairwise_cons.mp hp
    cases hev : (handStep cfg s hd t).2 with
    | none =>
      simp only [handFrame, hev]
      exact ih (handStep cfg s hd t).1 hp'
    | some e =>
      have hl := (handStep_event_cooldown cfg s hd t e hev).2
      have hrest := handFrame_no_emit cfg rest (handStep cfg s hd t).1 (by
        intro ht hmem
        rw [hl]
        exact hrel ht hmem)
      simp only [handFrame, hev, hrest.1]
      simp

/-- C7: per hand, the swipe detector is consulted before the fist detector —
a detected swipe within the cooldown window wins regardless of what the
fist detector would say; any hand event is emitted only when more than
`hand_cooldown` has elapsed since the last hand event of any kind (which
the emission then updates); and over a whole frame whose per-hand
timestamps lie within `hand_cooldown` of one another, at most one hand
event is emitted across all tracked hands. -/
theorem hand_priority_cooldown_one_per_frame :
    (∀ (cfg : Config) (s : HandState) (h : Hand) (now : ℚ),
      (detect_swipe cfg s h now).2 = some HandGesture.swipe_left →
      now - s.last_hand_gesture_time > cfg.hand_cooldown →
      (handStep cfg s h now).2 = some ⟨"swipe_left", "hand"⟩) ∧
    (∀ (cfg : Config) (s : HandState) (h : Hand) (now : ℚ) (e : Event),
      (handStep cfg s h now).2 = some e →
      now - s.last_hand_gesture_time > cfg.hand_cooldown) ∧
    (∀ (cfg : Config) (s : HandState) (hands : List (Hand × ℚ)),
      List.Pairwise (fun a b : Hand × ℚ => b.2 - a.2 ≤ cfg.hand_cooldown) hands →
      (handFrame cfg s hands).2.length ≤ 1) := by
  refine ⟨?_, ?_, ?_⟩
  · intro cfg s h now hsw hcool
    dsimp only [handStep]
    rw [detect_swipe_last]
    rw [if_pos ⟨by rw [hsw]; rfl, hcool⟩]
    simp [hsw, HandGesture.name]
  · intro cfg s h now e he
    exact (handStep_event_cooldown cfg s h now e he).1
  · intro cfg s hands hp
    exact handFrame_at_most_one cfg hands s hp

/-- Witness for C7: a concrete in-progress swipe that fires with the
cooldown long expired, its cooldown fact recovered from the emission, and a
two-fist-hand frame (timestamps 2 and 2.5) emitting at most one event. -/
theorem hand_priority_cooldown_one_per_frame_witness :
    (handStep defaultConfig
      { last_hand_gesture_time := 0, hand_prev_x := some (1/2),
        swipe_start_time := some 2, swipe_start_x := some (1/2) }
      (palmHand (1/4)) (21/10)).2 = some ⟨"swipe_left", "hand"⟩ ∧
    (21/10 : ℚ) - ({ last_hand_gesture_time := 0, hand_prev_x := some (1/2),
                     swipe_start_time := some 2, swipe_start_x := some (1/2) } :
        HandState).last_hand_gesture_time > defaultConfig.hand_cooldown ∧
    (handFrame defaultConfig HandState.init
      [(fistHand, 2), (fistHand, 5/2)]).2.length ≤ 1 := by
  have hsw : (detect_swipe defaultConfig
      { last_hand_gesture_time := 0, hand_prev_x := some (1/2),
        swipe_start_time := some 2, swipe_start_x := some (1/2) }
      (palmHand (1/4)) (21/10)).2 = some HandGesture.swipe_left := by
    norm_num [detect_swipe, detect_palm, palmHand, defaultConfig]
  have hcool : (21/10 : ℚ) - ({ last_hand_gesture_time := 0,
                                hand_prev_x := some (1/2),
                                swipe_start_time := some 2,
                                swipe_start_x := some (1/2) } :
      HandState).last_hand_gesture_time > defaultConfig.hand_cooldown := by
    have h1 : defaultConfig.hand_cooldown = 1 := rfl
    rw [h1]
    norm_num
  have hemit := hand_priority_cooldown_one_per_frame.1 defaultConfig
    { last_hand_gesture_time := 0, hand_prev_x := some (1/2),
      swipe_start_time := some 2, swipe_start_x := some (1/2) }
    (palmHand (1/4)) (21/10) hsw hcool
  refine ⟨hemit, hand_priority_cooldown_one_per_frame.2.1 defaultConfig _ _ _ _ hemit, ?_⟩
  refine hand_priority_cooldown_one_per_frame.2.2 defaultConfig HandState.init
    [(fistHand, 2), (fistHand, 5/2)] ?_
  refine List.pairwise_cons.mpr ⟨?_, List.pairwise_singleton _ _⟩
  intro b hb
  have hb' : b = (fistHand, 5/2) := by simpa using hb
  rw [hb']
  have h1 : defaultConfig.hand_cooldown = 1 := rfl
  rw [h1]
  norm_num

/-- C9: when `detect_swipe` fires it has already cleared the swipe tracker
(`swipe_start_x`/`swipe_start_time`); if the hand cooldown has not elapsed,
`handStep` emits nothing while the tracker stays cleared — the suppressed
swipe is discarded, not deferred; the next open-palm frame merely re-seeds
the tracker at the current palm position without emitting, and from a
seeded tracker (within `swipe_max_time`) a swipe fires exactly when the
palm has moved left of the seed by more than `swipe_threshold`. -/
theorem suppressed_swipe_discarded :
    (∀ (cfg : Config) (s : HandState) (h : Hand) (now : ℚ) (g : HandGesture),
      (detect_swipe cfg s h now).2 = some g →
      ¬(now - s.last_hand_gesture_time > cfg.hand_cooldown) →
      (handStep cfg s h now).2 = none ∧
      (handStep cfg s h now).1.swipe_start_x = none ∧
      (handStep cfg s h now).1.swipe_start_time = none) ∧
    (∀ (cfg : Config) (s : HandState) (h : Hand) (now : ℚ),
      s.swipe_start_x = none → detect_palm h = true →
      (detect_swipe cfg s h now).2 = none ∧
      (detect_swipe cfg s h now).1.swipe_start_x = some ((h.landmark 9).x) ∧
      (detect_swipe cfg s h now).1.swipe_start_time = some now) ∧
    (∀ (cfg : Config) (s : HandState) (h : Hand) (now sx : ℚ),
      s.swipe_start_x = some sx → detect_palm h = true →
      now - s.swipe_start_time.getD 0 < cfg.swipe_max_time →
      ((detect_swipe cfg s h now).2.isSome ↔
        sx - (h.landmark 9).x > cfg.swipe_threshold)) := by
  refine ⟨?_, ?_, ?_⟩
  · intro cfg s h now g he hcool
    have hclear := detect_swipe_some_clears cfg s h now g he
    dsimp only [handStep]
    rw [detect_swipe_last]
    split_ifs with h1 h2
    · exact absurd h1.2 hcool
    · exact ⟨rfl, hclear.1, hclear.2⟩
    · exact ⟨rfl, hclear.1, hclear.2⟩
  · intro cfg s h now hx hpalm
    dsimp only [detect_swipe]
    simp only [hx, hpalm]
    exact ⟨rfl, rfl, rfl⟩
  · intro cfg s h now sx hx hpalm hfast
    dsimp only [detect_swipe]
    simp only [hx, hpalm]
    rw [if_pos hfast]
    by_cases hd : sx - (h.landmark 9).x > cfg.swipe_threshold
    · simp [hd]
    · simp [hd]

/-- Witness for C9: the concrete firing swipe of the C7 witness, suppressed
under a fresh hand event at time 2 (cooldown 1 not yet elapsed at 2.1),
then a re-seed and a fresh-threshold check on concrete palm frames. -/
theorem suppressed_swipe_discarded_witness :
    ((handStep defaultConfig
        { last_hand_gesture_time := 2, hand_prev_x := some (1/2),
          swipe_start_time := some 2, swipe_start_x := some (1/2) }
        (palmHand (1/4)) (21/10)).2 = none ∧
      (handStep defaultConfig
        { last_hand_gesture_time := 2, hand_prev_x := some (1/2),
          swipe_start_time := some 2, swipe_start_x := some (1/2) }
        (palmHand (1/4)) (21/10)).1.swipe_start_x = none ∧
      (handStep defaultConfig
        { last_hand_gesture_time := 2, hand_prev_x := some (1/2),
          swipe_start_time := some 2, swipe_start_x := some (1/2) }
        (palmHand (1/4)) (21/10)).1.swipe_start_time = none) ∧
    ((detect_swipe defaultConfig
        { last_hand_gesture_time := 2, hand_prev_x := none,
          swipe_start_time := none, swipe_start_x := none }
        (palmHand (1/4)) (22/10)).2 = none ∧
      (detect_swipe defaultConfig
        { last_hand_gesture_time := 2, hand_prev_x := none,
          swipe_start_time := none, swipe_start_x := none }
        (palmHand (1/4)) (22/10)).1.swipe_start_x =
          some (((palmHand (1/4)).landmark 9).x) ∧
      (detect_swipe defaultConfig
        { last_hand_gesture_time := 2, hand_prev_x := none,
          swipe_start_time := none, swipe_start_x := none }
        (palmHand (1/4)) (22/10)).1.swipe_start_time = some (22/10)) ∧
    ((detect_swipe defaultConfig
        { last_hand_gesture_time := 2, hand_prev_x := some (1/4),
          swipe_start_time := some (22/10), swipe_start_x := some (1/4) }
        (palmHand (1/5)) (23/10)).2.isSome ↔
      (1/4 : ℚ) - ((palmHand (1/5)).landmark 9).x >
        defaultConfig.swipe_threshold) := by
  refine ⟨?_, ?_, ?_⟩
  · exact suppressed_swipe_discarded.1 defaultConfig
      { last_hand_gesture_time := 2, hand_prev_x := some (1/2),
        swipe_start_time := some 2, swipe_start_x := some (1/2) }
      (palmHand (1/4)) (21/10) HandGesture.swipe_left
      (by norm_num [detect_swipe, detect_palm, palmHand, defaultConfig])
      (by
        have h1 : defaultConfig.hand_cooldown = 1 := rfl
        rw [h1]
        norm_num)
  · exact suppressed_swipe_discarded.2.1 defaultConfig
      { last_hand_gesture_time := 2, hand_prev_x := none,
        swipe_start_time := none, swipe_start_x := none }
      (palmHand (1/4)) (22/10) rfl
      (by norm_num [detect_palm, palmHand])
  · exact suppressed_swipe_discarded.2.2 defaultConfig
      { last_hand_gesture_time := 2, hand_prev_x := some (1/4),
        swipe_start_time := some (22/10), swipe_start_x := some (1/4) }
      (palmHand (1/5)) (23/10) (1/4) rfl
      (by norm_num [detect_palm, palmHand])
      (by
        have h1 : defaultConfig.swipe_max_time = 1/2 := rfl
        rw [h1, Option.getD_some]
        norm_num)

/-- C6 counterexample: in one read containing a malformed line followed by
a well-formed `recalibrate` command line, the command is NOT handled (the
neutral pitch survives), although the same command line alone is handled —
the malformed line prevents the handling of the later well-formed line. -/
theorem malformed_line_aborts_read_counterexample :
    (handleLines [LineParse.malformed, LineParse.recalCmd]
      { cal := { pitch_history := [], yaw_history := [], neutral_pitch := some 5,
                 neutral_yaw := some 6, calibration_count := 30 },
        head := HState.init }).cal.neutral_pitch = some 5 ∧
    (handleLines [LineParse.recalCmd]
      { cal := { pitch_history := [], yaw_history := [], neutral_pitch := some 5,
                 neutral_yaw := some 6, calibration_count := 30 },
        head := HState.init }).cal.neutral_pitch = none :=
  ⟨rfl, rfl⟩

/-- C6 (amended): each read is split on newlines and its lines are handled
left to right with no buffering across reads; well-formed lines BEFORE the
first malformed line are each handled independently (matching the spec's
per-line handling on malformed-free reads), but a malformed line ends the
processing of that read — it and every line after it in the same read are
dropped; the connection itself is not aborted (the handler is total and the
loop continues). -/
theorem inbound_lines_prefix_until_malformed :
    (∀ (pre post : List LineParse) (s : EngineState),
      LineParse.malformed ∉ pre →
      handleLines (pre ++ LineParse.malformed :: post) s = handleLines pre s) ∧
    (∀ (lines : List LineParse) (s : EngineState),
      LineParse.malformed ∉ lines →
      handleLines lines s = specHandleLines lines s) := by
  constructor
  · intro pre post s hpre
    induction pre generalizing s with
    | nil => rfl
    | cons a rest ih =>
      have hrest : LineParse.malformed ∉ rest :=
        fun h => hpre (List.mem_cons_of_mem _ h)
      cases a with
      | malformed => exact absurd (List.mem_cons_self _ _) hpre
      | recalCmd =>
        simp only [List.cons_append, handleLines]
        exact ih (handleRecalibrate s) hrest
      | otherCmd =>
        simp only [List.cons_append, handleLines]
        exact ih s hrest
  · intro lines s h
    induction lines generalizing s with
    | nil => rfl
    | cons a rest ih =>
      have hrest : LineParse.malformed ∉ rest :=
        fun hm => h (List.mem_cons_of_mem _ hm)
      cases a with
      | malformed => exact absurd (List.mem_cons_self _ _) h
      | recalCmd =>
        simp only [handleLines, specHandleLines]
        exact ih (handleRecalibrate s) hrest
      | otherCmd =>
        simp only [handleLines, specHandleLines]
        exact ih s hrest

/-- Witness for C6 (amended): a read whose well-formed prefix is a single
recalibrate command handled before the malformed tail is dropped, and a
malformed-free read handled exactly as the spec's per-line handling. -/
theorem inbound_lines_prefix_until_malformed_witness :
    handleLines [LineParse.recalCmd, LineParse.malformed, LineParse.otherCmd]
      { cal := CalState.init, head := HState.init } =
      handleLines [LineParse.recalCmd]
        { cal := CalState.init, head := HState.init } ∧
    handleLines [LineParse.otherCmd, LineParse.recalCmd]
      { cal := CalState.init, head := HState.init } =
      specHandleLines [LineParse.otherCmd, LineParse.recalCmd]
        { cal := CalState.init, head := HState.init } :=
  ⟨inbound_lines_prefix_until_malformed.1 [LineParse.recalCmd]
    [LineParse.otherCmd] { cal := CalState.init, head := HState.init }
    (by decide),
   inbound_lines_prefix_until_malformed.2
    [LineParse.otherCmd, LineParse.recalCmd]
    { cal := CalState.init, head := HState.init } (by decide)⟩

theorem handStep_event_shape (cfg : Config) (s : HandState) (h : Hand)
    (now : ℚ) (e : Event)
    (he : (handStep cfg s h now).2 = some e) :
    e = ⟨"swipe_left", "hand"⟩ ∨ e = ⟨"fist", "hand"⟩ := by
  dsimp only [handStep] at he
  split_ifs at he with h1 h2 h3
  · left
    have hname : ((detect_swipe cfg s h now).2.getD HandGesture.swipe_left).name =
        "swipe_left" := by
      rcases detect_swipe_only_left cfg s h now with hn | hn <;> rw [hn] <;> rfl
    rw [← Option.some.inj he, hname]
  · right
    rw [← Option.some.inj he]
    rfl

theorem handFrame_events_shape (cfg : Config) :
    ∀ (hands : List (Hand × ℚ)) (s : HandState) (e : Event),
    e ∈ (handFrame cfg s hands).2 →
    e = ⟨"swipe_left", "hand"⟩ ∨ e = ⟨"fist", "hand"⟩ := by
  intro hands
  induction hands with
  | nil =>
    intro s e he
    exact absurd he (by simp [handFrame])
  | cons a rest ih =>
    intro s e he
    obtain ⟨hd, t⟩ := a
    cases hev : (handStep cfg s hd t).2 with
    | none =>
      simp only [handFrame, hev] at he
      exact ih (handStep cfg s hd t).1 e he
    | some e0 =>
      simp only [handFrame, hev, List.mem_cons] at he
      cases he with
      | inl h0 => exact h0 ▸ handStep_event_shape cfg s hd t e0 hev
      | inr h0 => exact ih (handStep cfg s hd t).1 e h0

/-- C8: every head event the `run` loop emits carries a gesture name from
`{nod,hold}_{left,right,up,down}` with `action_type = "head"`; every hand
event emitted during a frame carries `"fist"` or `"swipe_left"` with
`action_type = "hand"`; and each event is serialized by `IPCClient.send`
as the single newline-terminated JSON object
`\x7b"type": "gesture", "gesture": <name>, "action_type": <head|hand>\x7d`. -/
theorem emitted_gestures_closed_set :
    (∀ (cfg : Config) (np ny : ℚ) (s : HState) (p y now : ℚ) (e : Event),
      headEvent (detect_head_gesture cfg np ny s p y now).2 = some e →
      e.gesture ∈ headNames ∧ e.action_type = "head") ∧
    (∀ (cfg : Config) (hs : HandState) (hands : List (Hand × ℚ)) (e : Event),
      e ∈ (handFrame cfg hs hands).2 →
      e.gesture ∈ handNames ∧ e.action_type = "hand") ∧
    (∀ e : Event, wireLine e =
      "\x7b\"type\": \"gesture\", \"gesture\": \"" ++ e.gesture ++
      "\", \"action_type\": \"" ++ e.action_type ++ "\"\x7d\n") := by
  refine ⟨?_, ?_, fun e => rfl⟩
  · intro cfg np ny s p y now e he
    cases ho : (detect_head_gesture cfg np ny s p y now).2 with
    | none =>
      rw [ho] at he
      exact absurd he (by simp [headEvent])
    | some dm =>
      obtain ⟨d, m⟩ := dm
      rw [ho] at he
      obtain rfl := Option.some.inj he
      cases d <;> cases m <;> exact ⟨by decide, rfl⟩
  · intro cfg hs hands e he
    rcases handFrame_events_shape cfg hands hs e he with rfl | rfl
    · exact ⟨by decide, rfl⟩
    · exact ⟨by decide, rfl⟩

/-- Witness for C8: the nod emission of the C3 scenario and the fist
emission of a concrete frame both land in the closed name sets. -/
theorem emitted_gestures_closed_set_witness :
    ((headEvent (detect_head_gesture defaultConfig 0 0 (trackState Dir.right 2 25)
        0 0 (27/10)).2).getD ⟨"", ""⟩).gesture ∈ headNames ∧
    (∀ e : Event, e ∈ (handFrame defaultConfig HandState.init
      [(fistHand, 2), (fistHand, 5/2)]).2 →
      e.gesture ∈ handNames ∧ e.action_type = "hand") := by
  constructor
  · have hnod : (detect_head_gesture defaultConfig 0 0 (trackState Dir.right 2 25)
        0 0 (27/10)).2 = some (Dir.right, GMode.nod) := by
      rw [dhg_neutral_nod defaultConfig 0 0 (trackState Dir.right 2 25)
        0 0 (27/10) Dir.right
        (by
          rintro ⟨-, hlt⟩
          have h0 : (trackState Dir.right 2 25).last_gesture_time = 0 := rfl
          have h1 : defaultConfig.cooldown_time = 1 := rfl
          rw [h0, h1] at hlt
          norm_num at hlt)
        (by norm_num [detectDirection, defaultConfig])
        (by norm_num [defaultConfig]) (by norm_num [defaultConfig]) rfl
        (by
          have h0 : (trackState Dir.right 2 25).gesture_start_time = some 2 := rfl
          have h1 : defaultConfig.nod_max_time = 1 := rfl
          rw [h0, h1, Option.getD_some]
          norm_num) rfl]
    have h8 := emitted_gestures_closed_set.1 defaultConfig 0 0
      (trackState Dir.right 2 25) 0 0 (27/10)
      ⟨GMode.nod.name ++ "_" ++ Dir.right.name, "head"⟩ (by rw [hnod]; rfl)
    rw [hnod]
    exact h8.1
  · intro e he
    exact emitted_gestures_closed_set.2.1 defaultConfig HandState.init
      [(fistHand, 2), (fistHand, 5/2)] e he

end GestureWorker
